import Mathlib

/-!
Shallow embedding of the POCS device-control layer:
  src/pocs/focuser/focuslynx.py  (Optec FocusLynx focuser controller)
  src/panoptes/mount/mount.py    (AbstractMount)

The serial wire is modelled as scripted data: each command sent to the device
consumes one scripted response, itself a list of text lines (the successive
readline results).  Python exceptions are modelled by the `PyErr` error type of
an `Except` result; observable side effects (serial writes, warnings, log
records, sleeps) are collected in an ordered `List Effect` trace.
-/

namespace POCS

/-- Python dictionary with string keys and values, as an insertion-ordered
association list; `dictInsert` replaces in place like a Python dict. -/
abbrev Dict := List (String × String)

def dictGet : Dict → String → Option String
  | [], _ => none
  | (k, v) :: rest, key => if k = key then some v else dictGet rest key

def dictInsert : Dict → String → String → Dict
  | [], k, v => [(k, v)]
  | (k0, v0) :: rest, k, v =>
    if k0 = k then (k, v) :: rest else (k0, v0) :: dictInsert rest k v

/-- Python exceptions raised by the embedded code. -/
inductive PyErr where
  /-- `raise RuntimeError(response)` for a first response line that is not the
  acknowledgment character. -/
  | runtimeError (line : String)
  /-- a failed `assert` statement. -/
  | assertionError
  /-- `ValueError` from tuple unpacking of a split line or from `int`/`float`
  conversion of a malformed string. -/
  | valueError (s : String)
  /-- `raise ValueError(msg)` with an explicit message. -/
  | valueRange (msg : String)
  /-- `TypeError` from subscripting `None`. -/
  | typeError
  /-- `KeyError` from a missing dictionary key. -/
  | keyError (k : String)
  /-- `NameError` from evaluating an undefined name. -/
  | nameError (n : String)
  /-- modelling artifact of the unbounded `while self.is_moving` loop: the
  Python code would still be polling after this many iterations. -/
  | fuelExhausted
deriving Repr, DecidableEq

/-- Observable side effects, in program order. -/
inductive Effect where
  | serialWrite (s : String)
  | openSerial
  | warn (msg : String)
  | logDebug (msg : String)
  | logInfo (msg : String)
  | logWarning (msg : String)
  | logError (msg : String)
  | logCritical (msg : String)
  | sleep
deriving Repr, DecidableEq

/-- Python whitespace for `str.strip`. -/
def isPySpace (c : Char) : Bool :=
  c = ' ' || c = '\t' || c = '\n' || c = '\x0d' || c = '\x0b' || c = '\x0c'

/-- Python `s.strip()`. -/
def pyStrip (s : String) : String :=
  String.mk (((s.data.dropWhile isPySpace).reverse.dropWhile isPySpace).reverse)

/-- Split a character list at every occurrence of the separator, keeping empty
pieces (the behaviour of Python `str.split` with an explicit separator). -/
def splitCharAux (sep : Char) : List Char → List Char → List (List Char)
  | [], cur => [cur.reverse]
  | c :: cs, cur =>
    if c = sep then cur.reverse :: splitCharAux sep cs []
    else splitCharAux sep cs (c :: cur)

def splitChar (sep : Char) (s : String) : List String :=
  (splitCharAux sep s.data []).map String.mk

/-- Python `s.split('=')` (split on every equals sign, keeping empty pieces). -/
def splitEq (s : String) : List String := splitChar '=' s

/-- One `readline().strip()` on a scripted list of response lines; an exhausted
script models a read timeout, which yields an empty string. -/
def readline : List String → String × List String
  | [] => ("", [])
  | l :: ls => (pyStrip l, ls)

def digitVal : Char → Option Nat := fun c =>
  if 48 ≤ c.toNat ∧ c.toNat ≤ 57 then some (c.toNat - 48) else none

def digitsToNatAux : List Char → Nat → Option Nat
  | [], acc => some acc
  | c :: cs, acc =>
    match digitVal c with
    | some d => digitsToNatAux cs (acc * 10 + d)
    | none => none

/-- The value of a non-empty all-digit character list. -/
def digitsToNat : List Char → Option Nat
  | [] => none
  | cs => digitsToNatAux cs 0

def signedDigits : List Char → Option (Bool × Nat)
  | [] => none
  | c :: cs =>
    if c = '-' then (digitsToNat cs).map (fun n => (true, n))
    else if c = '+' then (digitsToNat cs).map (fun n => (false, n))
    else (digitsToNat (c :: cs)).map (fun n => (false, n))

def applySign (p : Bool × Nat) : Int :=
  if p.1 then -(p.2 : Int) else (p.2 : Int)

/-- Python `int(s)` for the decimal strings the device produces: surrounding
whitespace allowed, optional sign, decimal digits. -/
def pyInt (s : String) : Except PyErr Int :=
  match signedDigits (pyStrip s).data with
  | some p => .ok (applySign p)
  | none => .error (.valueError s)

/-- An exact decimal number as Python `float(s)` parses it from the device
strings: the denoted value is `mantissa / 10 ^ scale`.  No claim computes
with temperatures, so the representation is not normalised. -/
structure PyFloat where
  mantissa : Int
  scale : Nat
deriving Repr, DecidableEq

/-- Python `float(s)` on plain decimal literals
(optional sign, `digits` or `digits.digits`). -/
def pyFloat (s : String) : Except PyErr PyFloat :=
  let t := (pyStrip s).data
  let (neg, u) :=
    match t with
    | '-' :: cs => (true, cs)
    | '+' :: cs => (false, cs)
    | cs => (false, cs)
  match splitCharAux '.' u [] with
  | [a] =>
    match digitsToNat a with
    | some n => .ok ⟨if neg then -(n : Int) else (n : Int), 0⟩
    | none => .error (.valueError s)
  | [a, b] =>
    match digitsToNat a, digitsToNat b with
    | some n, some fr =>
      let mant : Int := (n * 10 ^ b.length + fr : Nat)
      .ok ⟨if neg then -mant else mant, b.length⟩
    | _, _ => .error (.valueError s)
  | _ => .error (.valueError s)

end POCS

namespace FocusLynx

open POCS

/-- The scripted device: one entry (a list of response lines) per command sent.
`_send_command` calls `reset_input_buffer` before each command, so unread lines
of the previous response are discarded — popping one entry per command models
this exactly. -/
abbrev Dev := List (List String)

def devPop : Dev → List String × Dev
  | [] => ([], [])
  | r :: rs => (r, rs)

/-- The `GET INFO` parsing loop of `_send_command` (focuslynx.py lines
303-309): read lines until a literal `END`; each line is split on every
equals sign and unpacked into `key, value` with both sides stripped — a line
whose split does not have exactly two pieces raises `ValueError`.  On an
exhausted script, readline yields an empty string, which is not `END` and
whose split has one piece, so the loop raises rather than diverging. -/
def parseInfo : List String → Dict → Except PyErr (Dict × List String)
  | [], _acc => .error (.valueError "")
  | l :: ls, acc =>
    let resp := pyStrip l
    if resp = "END" then .ok (acc, ls)
    else
      match splitEq resp with
      | [k, v] => parseInfo ls (dictInsert acc (pyStrip k) (pyStrip v))
      | _ => .error (.valueError resp)

/-- The command types dispatched in `_send_command`; the final
`raise ValueError` branch for an unknown type is unreachable here because the
type is closed. -/
inductive CommandType where
  | move
  | halt
  | setParam
  | getInfoCmd (header : String)
deriving Repr, DecidableEq

/-- Response parsing of `_send_command` over one scripted response: the first
line must be the single acknowledgment character, otherwise
`RuntimeError(response)` is raised; then the shape demanded by the command
type is checked (`assert` on the header / `SET` / `M` / `HALTED` lines). -/
def sendCmdLines (ctype : CommandType) (lines : List String) :
    Except PyErr (Option Dict × List String) :=
  let (ack, rest) := readline lines
  if ack ≠ "!" then .error (.runtimeError ack)
  else
    match ctype with
    | .getInfoCmd header =>
      let (h, rest2) := readline rest
      if h ≠ header then .error .assertionError
      else
        match parseInfo rest2 [] with
        | .ok (info, rest3) => .ok (some info, rest3)
        | .error e => .error e
    | .setParam =>
      let (l, rest2) := readline rest
      if l = "SET" then .ok (none, rest2) else .error .assertionError
    | .move =>
      let (l, rest2) := readline rest
      if l = "M" then .ok (none, rest2) else .error .assertionError
    | .halt =>
      let (l, rest2) := readline rest
      if l = "HALTED" then .ok (none, rest2) else .error .assertionError

/-- `_send_command`: reset buffers, write the command, parse the response. -/
def sendCommand (cmd : String) (ctype : CommandType) (dev : Dev) :
    Except PyErr (Option Dict) × Dev × List Effect :=
  let (resp, rest) := devPop dev
  (Except.map Prod.fst (sendCmdLines ctype resp), rest, [Effect.serialWrite cmd])

/-- The diagnostic text of `_get_info` / `_set_param` (source format string
`Error setting parameter using command ...`, quote characters elided). -/
def getInfoWarnMsg (cmd line : String) : String :=
  "Error setting parameter using command " ++ cmd ++ ": " ++ line

/-- `_get_info`: runs `_send_command` with type `GET INFO` and catches
`RuntimeError` only, logging and warning and returning `None`; every other
exception (assertion failures, value errors) propagates. -/
def getInfo (cmd : String) (header : String) (dev : Dev) :
    Except PyErr (Option Dict) × Dev × List Effect :=
  match sendCommand cmd (.getInfoCmd header) dev with
  | (.ok info, dev2, effs) => (.ok info, dev2, effs)
  | (.error (.runtimeError line), dev2, effs) =>
    (.ok none, dev2,
      effs ++ [Effect.logError (getInfoWarnMsg cmd line),
               Effect.warn (getInfoWarnMsg cmd line)])
  | (.error e, dev2, effs) => (.error e, dev2, effs)

/-- `_set_param`: like `_get_info` but with the `SET PARAM` response shape. -/
def setParam (cmd : String) (dev : Dev) :
    Except PyErr Unit × Dev × List Effect :=
  match sendCommand cmd .setParam dev with
  | (.ok _, dev2, effs) => (.ok (), dev2, effs)
  | (.error (.runtimeError line), dev2, effs) =>
    (.ok (), dev2,
      effs ++ [Effect.logError (getInfoWarnMsg cmd line),
               Effect.warn (getInfoWarnMsg cmd line)])
  | (.error e, dev2, effs) => (.error e, dev2, effs)

/-- The attribute state of a `focuslynx.Focuser` object.  Placeholder values
for attributes that Python has not assigned yet are never observable: on every
successful construction path each field is overwritten before the record is
returned, and failing paths return an error instead of a record. -/
structure Focuser where
  port : String
  name : String
  model : String
  focuser_number : Nat
  min_position : Int
  max_position : Int
  position : Int
  target_position : Int
  is_moving : Bool
  temperature : PyFloat
  hub_info : Option Dict
  focuser_config : Option Dict
  focuser_status : Option Dict
deriving Repr, DecidableEq

/-- Python subscripting `d[key]` where `d` can be `None` (as left behind by a
swallowed protocol error in `_get_info`): `None[key]` raises `TypeError`, a
missing key raises `KeyError`. -/
def subscript (d : Option Dict) (k : String) : Except PyErr String :=
  match d with
  | none => .error .typeError
  | some dd =>
    match dictGet dd k with
    | some v => .ok v
    | none => .error (.keyError k)

/-- Zero padding used by the Python format spec `{:06d}` (braces as in the
source template); for a negative number the sign counts toward the width and
the zeros come after it. -/
def padZeros (w : Nat) (s : String) : String :=
  String.mk (List.replicate (w - s.length) '0') ++ s

def format06d (n : Int) : String :=
  if n < 0 then "-" ++ padZeros 5 (toString (-n)) else padZeros 6 (toString n)

def hubCommand : String := "<FHGETHUBINFO>"
def hubHeader : String := "HUB INFO"
def configCommand (n : Nat) : String := "<F" ++ toString n ++ "GETCONFIG>"
def configHeader (n : Nat) : String := "CONFIG" ++ toString n
def statusCommand (n : Nat) : String := "<F" ++ toString n ++ "GETSTATUS>"
def statusHeader (n : Nat) : String := "STATUS" ++ toString n
def haltCommand (n : Nat) : String := "<F" ++ toString n ++ "HALT>"
def moveCommand (n : Nat) (p : Int) : String :=
  "<F" ++ toString n ++ "MA" ++ format06d p ++ ">"
def nicknameCommand (n : Nat) (nick : String) : String :=
  "<F" ++ toString n ++ "SCNN" ++ nick ++ ">"

/-- `_update_focuser_status`: a fresh `GETSTATUS` info query, whose result is
stored in `_focuser_status` and then projected into `_position`,
`_target_position`, `_is_moving` (via `bool(int(.))`) and `_temperature`. -/
def update_focuser_status (f : Focuser) (dev : Dev) :
    Except PyErr Focuser × Dev × List Effect :=
  match getInfo (statusCommand f.focuser_number) (statusHeader f.focuser_number) dev with
  | (.error e, dev2, effs) => (.error e, dev2, effs)
  | (.ok st, dev2, effs) =>
    let f1 := { f with focuser_status := st }
    match subscript st "Curr Pos" >>= pyInt with
    | .error e => (.error e, dev2, effs)
    | .ok cp =>
      match subscript st "Targ Pos" >>= pyInt with
      | .error e => (.error e, dev2, effs)
      | .ok tp =>
        match subscript st "IsMoving" >>= pyInt with
        | .error e => (.error e, dev2, effs)
        | .ok im =>
          match subscript st "Temp(C)" >>= pyFloat with
          | .error e => (.error e, dev2, effs)
          | .ok tc =>
            (.ok { f1 with position := cp, target_position := tp,
                           is_moving := im != 0, temperature := tc }, dev2, effs)

/-- The `position` property: triggers `_update_focuser_status()` and returns
the fresh `_position`. -/
def position_read (f : Focuser) (dev : Dev) :
    Except PyErr (Int × Focuser) × Dev × List Effect :=
  match update_focuser_status f dev with
  | (.ok f2, dev2, effs) => (.ok (f2.position, f2), dev2, effs)
  | (.error e, dev2, effs) => (.error e, dev2, effs)

/-- The `is_moving` property: triggers `_update_focuser_status()` and returns
the fresh `_is_moving`. -/
def is_moving_read (f : Focuser) (dev : Dev) :
    Except PyErr (Bool × Focuser) × Dev × List Effect :=
  match update_focuser_status f dev with
  | (.ok f2, dev2, effs) => (.ok (f2.is_moving, f2), dev2, effs)
  | (.error e, dev2, effs) => (.error e, dev2, effs)

/-- The `temperature` property as written at focuslynx.py line 153: the
statement `self._update_focuser_status` lacks the call parentheses, so it is a
bare attribute access with no effect — no status query is performed and the
cached `_temperature` is returned (scaled by the units wrapper, which we drop
as it carries no data). -/
def temperature_read (f : Focuser) (dev : Dev) :
    Except PyErr (PyFloat × Focuser) × Dev × List Effect :=
  (.ok (f.temperature, f), dev, [])

/-- The `uid` property: `self._focuser_config[Nickname]`. -/
def uid_read (f : Focuser) : Except PyErr String :=
  subscript f.focuser_config "Nickname"

/-- The clamping prologue of `move_to` (focuslynx.py lines 191-202), returning
the possibly clamped target together with its log/warn effects. -/
def clampEffects (f : Focuser) (p : Int) : Int × List Effect :=
  if p < f.min_position then
    let msg := "Requested position " ++ toString p ++
      " less than min position, moving to " ++ toString f.min_position ++ "!"
    (f.min_position, [Effect.logError msg, Effect.warn msg])
  else if p > f.max_position then
    let msg := "Requested position " ++ toString p ++
      " greater than max position, moving to " ++ toString f.max_position ++ "!"
    (f.max_position, [Effect.logError msg, Effect.warn msg])
  else (p, [])

/-- The `while self.is_moving: time.sleep(1)` loop of the blocking branch of
`move_to`.  The Python loop has no bound; `fuel` exhaustion marks runs on
which the Python code would still be polling. -/
def wait_while_moving (fuel : Nat) (f : Focuser) (dev : Dev) :
    Except PyErr Focuser × Dev × List Effect :=
  match fuel with
  | 0 => (.error .fuelExhausted, dev, [])
  | Nat.succ k =>
    match is_moving_read f dev with
    | (.error e, dev2, effs) => (.error e, dev2, effs)
    | (.ok (m, f2), dev2, effs) =>
      if m then
        let (r, dev3, effs2) := wait_while_moving k f2 dev2
        (r, dev3, effs ++ [Effect.sleep] ++ effs2)
      else (.ok f2, dev2, effs)

/-- `move_to(position, blocking)`: clamp into the stored bounds with warnings,
log (which reads `uid`), send the `MA` move command, and either poll
`is_moving` until false and return the fresh actual position (blocking), or
return the clamped target immediately (non-blocking). -/
def move_to (f : Focuser) (p : Int) (blocking : Bool) (fuel : Nat) (dev : Dev) :
    Except PyErr (Int × Focuser) × Dev × List Effect :=
  let (target, ceffs) := clampEffects f p
  match uid_read f with
  | .error e => (.error e, dev, ceffs)
  | .ok nick =>
    let dbg := Effect.logDebug ("Moving focuser " ++ nick ++ " to " ++ toString target)
    match sendCommand (moveCommand f.focuser_number target) .move dev with
    | (.error e, dev2, effs) => (.error e, dev2, ceffs ++ [dbg] ++ effs)
    | (.ok _, dev2, effs) =>
      let effs0 := ceffs ++ [dbg] ++ effs
      if blocking then
        match wait_while_moving fuel f dev2 with
        | (.error e, dev3, effs2) => (.error e, dev3, effs0 ++ effs2)
        | (.ok f2, dev3, effs2) =>
          match position_read f2 dev3 with
          | (.error e, dev4, effs3) => (.error e, dev4, effs0 ++ effs2 ++ effs3)
          | (.ok (pos, f3), dev4, effs3) =>
            if pos ≠ f3.target_position then
              match uid_read f3 with
              | .error e => (.error e, dev4, effs0 ++ effs2 ++ effs3)
              | .ok nick2 =>
                let msg := "Focuser " ++ nick2 ++ " did not reach target position " ++
                  toString f3.target_position ++ ", now at " ++ toString f3.position ++ "!"
                (.ok (f3.position, f3), dev4,
                  effs0 ++ effs2 ++ effs3 ++ [Effect.logWarning msg, Effect.warn msg])
            else (.ok (f3.position, f3), dev4, effs0 ++ effs2 ++ effs3)
      else (.ok (target, f), dev2, effs0)

/-- `halt()`: send the `HALT` command (response must be `!` then `HALTED`),
then log a warning naming `uid`.  No attribute of the object is assigned. -/
def halt (f : Focuser) (dev : Dev) : Except PyErr Focuser × Dev × List Effect :=
  match sendCommand (haltCommand f.focuser_number) .halt dev with
  | (.error e, dev2, effs) => (.error e, dev2, effs)
  | (.ok _, dev2, effs) =>
    match uid_read f with
    | .error e => (.error e, dev2, effs)
    | .ok nick =>
      (.ok f, dev2, effs ++ [Effect.logWarning ("Focuser " ++ nick ++ " halted")])

/-- The 16-character truncation of the `uid` setter (focuslynx.py lines
95-98). -/
def truncateNickname (nickname : String) : String × List Effect :=
  if nickname.length > 16 then
    (nickname.take 16,
      [Effect.logWarning ("Truncated nickname " ++ nickname ++ " to " ++
        nickname.take 16 ++ " (must be <= 16 characters)")])
  else (nickname, [])

/-- The `uid` setter: truncate the nickname to 16 characters with a warning,
send the `SCNN` set-parameter command, then refresh `_focuser_config`. -/
def uid_set (f : Focuser) (nickname : String) (dev : Dev) :
    Except PyErr Focuser × Dev × List Effect :=
  match truncateNickname nickname with
  | (nick2, weffs) =>
  match setParam (nicknameCommand f.focuser_number nick2) dev with
  | (.error e, dev2, effs) => (.error e, dev2, weffs ++ effs)
  | (.ok _, dev2, effs) =>
    match getInfo (configCommand f.focuser_number) (configHeader f.focuser_number) dev2 with
    | (.error e, dev3, effs2) => (.error e, dev3, weffs ++ effs ++ effs2)
    | (.ok cfg, dev3, effs2) =>
      (.ok { f with focuser_config := cfg }, dev3, weffs ++ effs ++ effs2)

/-- `_initialise`: hub info, focuser config and a first status update, then
`model` and `_max_position` are taken from the config record (`Dev Typ`,
`int(config[Max Pos])`); a config left as `None` by a swallowed protocol
error makes the subscripting raise `TypeError`.  The closing
`logger.info` (focuslynx.py line 240) formats `self` via `__str__` (line 80),
which reads `self.uid` — `self._focuser_config[Nickname]` — and `self.port`,
so a config record without a `Nickname` key raises `KeyError` here (and a
`None` config raises `TypeError`) and `_initialise` fails. -/
def initialise (f : Focuser) (dev : Dev) :
    Except PyErr Focuser × Dev × List Effect :=
  match getInfo hubCommand hubHeader dev with
  | (.error e, dev1, e1) => (.error e, dev1, e1)
  | (.ok hubd, dev1, e1) =>
    match getInfo (configCommand f.focuser_number) (configHeader f.focuser_number) dev1 with
    | (.error e, dev2, e2) => (.error e, dev2, e1 ++ e2)
    | (.ok cfgd, dev2, e2) =>
      let f1 := { f with hub_info := hubd, focuser_config := cfgd }
      match update_focuser_status f1 dev2 with
      | (.error e, dev3, e3) => (.error e, dev3, e1 ++ e2 ++ e3)
      | (.ok f2, dev3, e3) =>
        match subscript f2.focuser_config "Dev Typ" with
        | .error e => (.error e, dev3, e1 ++ e2 ++ e3)
        | .ok dt =>
          match subscript f2.focuser_config "Max Pos" >>= pyInt with
          | .error e => (.error e, dev3, e1 ++ e2 ++ e3)
          | .ok mp =>
            match subscript f2.focuser_config "Nickname" with
            | .error e => (.error e, dev3, e1 ++ e2 ++ e3)
            | .ok nick =>
              (.ok { f2 with model := dt, max_position := mp }, dev3,
                e1 ++ e2 ++ e3 ++
                  [Effect.logInfo (f2.name ++ " " ++ toString f2.focuser_number ++
                    " (" ++ nick ++ ") on " ++ f2.port ++ " initialised")])

/-- The `max_position` override block of `__init__` (focuslynx.py lines
58-67), over the already-set `_min_position` and the device-derived
`_max_position`: an override not exceeding the device maximum is accepted when
strictly above `_min_position` and raises `ValueError` otherwise; an override
exceeding the device maximum keeps the device value and warns. -/
def applyMaxOverride (minP devMax : Int) (cfgMax : Option Int) :
    Except PyErr Int × List Effect :=
  match cfgMax with
  | none => (.ok devMax, [])
  | some m =>
    if m ≤ devMax then
      if m > minP then (.ok m, [])
      else (.error (.valueRange "Max position must be greater than min position!"), [])
    else
      (.ok devMax,
        [Effect.warn ("Specified max_position " ++ toString m ++
          " greater than focuser max " ++ toString devMax ++ "!")])

/-- The constructor arguments of `focuslynx.Focuser` that the claims involve
(further base-class arguments are passed through to `AbstractFocuser`). -/
structure FocuserArgs where
  name : String
  model : String
  initial_position : Option Int
  focuser_number : Nat
  min_position : Int
  max_position : Option Int
  port : String
deriving Repr, DecidableEq

/-- The attribute record before `_initialise` has run; the placeholders stand
for attributes Python has not assigned yet and are all overwritten on every
successful construction path. -/
def initialState (args : FocuserArgs) : Focuser :=
  { port := args.port, name := args.name, model := args.model,
    focuser_number := args.focuser_number,
    min_position := 0, max_position := 0, position := 0, target_position := 0,
    is_moving := false, temperature := ⟨0, 0⟩,
    hub_info := none, focuser_config := none, focuser_status := none }

/-- The `min_position` block of `__init__` (focuslynx.py lines 51-56): a
non-negative configured value is stored, a negative one is replaced by 0 with
a warning. -/
def applyMinPosition (f1 : Focuser) (minP : Int) : Focuser × List Effect :=
  if minP ≥ 0 then
    ({ f1 with min_position := minP }, [])
  else
    ({ f1 with min_position := 0 },
      [Effect.warn ("Specified min_position " ++ toString minP ++
        " less than zero, ignoring!")])

/-- `__init__`: `connect()` first — when opening the serial port fails, the
`except` handler at focuslynx.py line 43 formats its message with the
undefined name `port`, so a `NameError` escapes the constructor before any
further attribute is assigned.  Otherwise `_focuser_number` is set,
`_initialise` runs, `_min_position` is clamped to be non-negative with a
warning, the `max_position` override block runs, and an `initial_position`
drives the focuser there.  The drive uses `self.position = initial_position`,
whose setter lives in `AbstractFocuser` (not under src/); modelled from the
spec and the class docstring — the focuser will drive to this encoder
position following initialisation — as a blocking `move_to`. -/
def construct (args : FocuserArgs) (serialOpens : Bool) (fuel : Nat) (dev : Dev) :
    Except PyErr Focuser × Dev × List Effect :=
  if serialOpens = false then
    (.error (.nameError "port"), dev,
      [Effect.logCritical ("Could not open " ++ args.port ++ "!")])
  else
    match initialise (initialState args) dev with
    | (.error e, dev2, effs) => (.error e, dev2, [Effect.openSerial] ++ effs)
    | (.ok f1, dev2, effs) =>
      match applyMinPosition f1 args.min_position with
      | (f2, meffs) =>
      match applyMaxOverride f2.min_position f2.max_position args.max_position with
      | (.error e, oeffs) =>
        (.error e, dev2, [Effect.openSerial] ++ effs ++ meffs ++ oeffs)
      | (.ok mp, oeffs) =>
        let f3 := { f2 with max_position := mp }
        match args.initial_position with
        | none => (.ok f3, dev2, [Effect.openSerial] ++ effs ++ meffs ++ oeffs)
        | some ip =>
          match move_to f3 ip true fuel dev2 with
          | (.error e, dev3, e2) =>
            (.error e, dev3, [Effect.openSerial] ++ effs ++ meffs ++ oeffs ++ e2)
          | (.ok (_, f4), dev3, e2) =>
            (.ok f4, dev3, [Effect.openSerial] ++ effs ++ meffs ++ oeffs ++ e2)

end FocusLynx

namespace Mount

open POCS

/-- The body of the first `setup_commands` definition (mount.py lines 61-74):
take the pre and post tokens with their defaults, then
`assert commands.get(slew) is not None`, whose failure message expression
logs a warning.  Returns the pre token, post token and the table. -/
def setup_commands_checked (commands : Dict) :
    Except PyErr (String × String × Dict) × List Effect :=
  let pre := (dictGet commands "cmd_pre").getD ":"
  let post := (dictGet commands "cmd_post").getD "#"
  match dictGet commands "slew" with
  | some _ => (.ok (pre, post, commands), [])
  | none => (.error .assertionError, [Effect.logWarning "No slew command available"])

/-- The `setup_commands` method the class actually binds: mount.py defines the
name twice and Python keeps the later definition (lines 118-119), whose
signature takes no argument beyond `self`, so the call
`self.setup_commands(commands)` in `__init__` raises `TypeError` for the extra
argument (were the arity right, its body would raise `NotImplementedError`). -/
def setup_commands_effective (_commands : Dict) : Except PyErr Dict :=
  .error .typeError

/-- Attribute state of an `AbstractMount` after a hypothetical successful
construction. -/
structure MountState where
  serial_port : String
  commands : Dict
  is_connected : Bool
  is_init_done : Bool
  is_slewing : Bool
deriving Repr, DecidableEq

/-- `AbstractMount.__init__`: assert that a config, a command table and a
serial port are given, set the initial properties, then
`self.commands = self.setup_commands(commands)`.  The call
`self.create_serial()` is commented out in the source (line 59), so
construction never opens the serial transport and no `openSerial` effect can
occur. -/
def constructMount (config : Option Dict) (commands : Option Dict) :
    Except PyErr MountState × List Effect :=
  match config with
  | none => (.error .assertionError, [Effect.logError "Mount requries a config"])
  | some cfg =>
    match commands with
    | none => (.error .assertionError, [Effect.logError "Mount requries commands"])
    | some cmds =>
      match dictGet cfg "serial_port" with
      | none =>
        (.error .assertionError,
          [Effect.logError "No port specified, cannot create mount"])
      | some sp =>
        match setup_commands_effective cmds with
        | .error e => (.error e, [])
        | .ok c2 =>
          (.ok { serial_port := sp, commands := c2, is_connected := false,
                 is_init_done := false, is_slewing := false }, [])

/-- The command framing state used by `get_command` / `serial_query`: the pre
and post tokens plus the command table. -/
structure MountSession where
  pre_cmd : String
  post_cmd : String
  commands : Dict
deriving Repr, DecidableEq

/-- Python string interpolation of `commands.get(cmd)`: a missing key yields
`None`, which `format` renders as the text `None`. -/
def pyFormatOpt : Option String → String
  | some s => s
  | none => "None"

/-- `get_command`: `pre + commands.get(cmd) + post`, with no lookup check. -/
def get_command (m : MountSession) (cmd : String) : String :=
  m.pre_cmd ++ pyFormatOpt (dictGet m.commands cmd) ++ m.post_cmd

/-- One Transport read.  `SerialData.read` lives in panoptes.utils.serial,
which is not under src/; modelled from the spec: the Transport yields the
device response for the request just written (strict request/response
alternation), here the next scripted line. -/
def serialRead : List String → String × List String
  | [] => ("", [])
  | r :: rs => (r, rs)

/-- `serial_query(cmd)`: translate via `get_command`, write the frame, read
the response.  It never inspects whether the command name was present. -/
def serial_query (m : MountSession) (cmd : String) (responses : List String) :
    String × List String × List Effect :=
  let frame := get_command m cmd
  let (resp, rest) := serialRead responses
  (resp, rest,
    [Effect.logDebug ("Mount Send: " ++ frame), Effect.serialWrite frame,
     Effect.logDebug ("Mount Read: " ++ resp)])

end Mount

namespace SpecModel

open POCS

/-- Break a character list at the first equals sign, when there is one. -/
def breakAtEq : List Char → Option (List Char × List Char)
  | [] => none
  | c :: cs =>
    if c = '=' then some ([], cs)
    else (breakAtEq cs).map (fun p => (c :: p.1, p.2))

/-- Splitting a body line as the spec words it: on the FIRST equals sign. -/
def splitFirstEq (s : String) : Option (String × String) :=
  match breakAtEq s.data with
  | some (k, v) => some (String.mk k, String.mk v)
  | none => none

/-- Info-block decoding as the spec words it (spec section 4.1): each line
before the terminator is split on the first equals sign with both sides
trimmed, and only a line lacking an equals sign is a protocol error.  Written
for comparison with `FocusLynx.parseInfo`, which is translated from the
source. -/
def decodeBlockSpec : List String → Dict → Except PyErr (Dict × List String)
  | [], _acc => .error (.valueError "")
  | l :: ls, acc =>
    let resp := pyStrip l
    if resp = "END" then .ok (acc, ls)
    else
      match splitFirstEq resp with
      | some (k, v) => decodeBlockSpec ls (dictInsert acc (pyStrip k) (pyStrip v))
      | none => .error (.valueError resp)

end SpecModel

namespace Examples

open POCS FocusLynx Mount

/-- A connected, initialised focuser state used as a concrete test fixture. -/
def fEx : Focuser :=
  { port := "p", name := "F", model := "OB", focuser_number := 1,
    min_position := 0, max_position := 7000, position := 100, target_position := 100,
    is_moving := false, temperature := ⟨20, 0⟩, hub_info := some [],
    focuser_config := some [("Nickname", "Foc")], focuser_status := some [] }

/-- A well-behaved device script for construction: hub info, config (with the
`Nickname` key that the closing log of `_initialise` reads) reporting a
device maximum of 7000, and one status block. -/
def devW : Dev :=
  [["!", "HUB INFO", "END"],
   ["!", "CONFIG1", "Nickname = Foc", "Dev Typ = OB", "Max Pos = 7000", "END"],
   ["!", "STATUS1", "Curr Pos = 100", "Targ Pos = 100", "IsMoving = 0",
    "Temp(C) = 20", "END"]]

def argsW : FocuserArgs :=
  { name := "F", model := "FA", initial_position := none, focuser_number := 1,
    min_position := 0, max_position := some 4200, port := "p" }

/-- The state `construct argsW true _ devW` produces. -/
def stW : Focuser :=
  { port := "p", name := "F", model := "OB", focuser_number := 1,
    min_position := 0, max_position := 4200, position := 100, target_position := 100,
    is_moving := false, temperature := ⟨20, 0⟩,
    hub_info := some [],
    focuser_config :=
      some [("Nickname", "Foc"), ("Dev Typ", "OB"), ("Max Pos", "7000")],
    focuser_status :=
      some [("Curr Pos", "100"), ("Targ Pos", "100"), ("IsMoving", "0"),
            ("Temp(C)", "20")] }

def effsW : List Effect :=
  [Effect.openSerial, Effect.serialWrite hubCommand,
   Effect.serialWrite (configCommand 1), Effect.serialWrite (statusCommand 1),
   Effect.logInfo "F 1 (Foc) on p initialised"]

/-- A device whose config reports a maximum travel of 4000. -/
def dev7c : Dev :=
  [["!", "HUB INFO", "END"],
   ["!", "CONFIG1", "Nickname = Foc", "Dev Typ = OB", "Max Pos = 4000", "END"],
   ["!", "STATUS1", "Curr Pos = 100", "Targ Pos = 100", "IsMoving = 0",
    "Temp(C) = 20", "END"]]

/-- Configured `min_position` 5000 with a `max_position` override of 4500,
against a device maximum of 4000: the override is below the minimum, yet
above the device maximum. -/
def args7c : FocuserArgs := { argsW with min_position := 5000, max_position := some 4500 }

/-- No `max_position` override: the device value must be kept. -/
def argsDev : FocuserArgs := { argsW with max_position := none }

/-- A mount session whose command table holds only a slew command. -/
def msessEx : MountSession :=
  { pre_cmd := ":", post_cmd := "#", commands := [("slew", "MS")] }

end Examples

namespace POCS

/-- Whether an `Except` result is an error. -/
def isErr {α : Type} : Except PyErr α → Bool
  | .error _ => true
  | .ok _ => false

end POCS

namespace FocusLynx

open POCS

/-- Projection of a construction result onto the stored `max_position`. -/
def resultMaxPos : Except PyErr Focuser → Option Int
  | .ok st => some st.max_position
  | .error _ => none

/-- Projection of a construction result onto the stored `min_position`. -/
def resultMinPos : Except PyErr Focuser → Option Int
  | .ok st => some st.min_position
  | .error _ => none

/-- An info-block body line the parsing loop consumes without error: not the
terminator, and splitting on the equals signs yields exactly two pieces. -/
abbrev goodLine (l : String) : Prop :=
  pyStrip l ≠ "END" ∧ (splitEq (pyStrip l)).length = 2

/-- An info-block body line on which the parsing loop raises: not the
terminator, and the split does not have exactly two pieces (no equals sign,
or several). -/
abbrev badLine (l : String) : Prop :=
  pyStrip l ≠ "END" ∧ (splitEq (pyStrip l)).length ≠ 2

end FocusLynx



/-!
Helper lemmas: preservation of the stored travel bounds by each operation,
characterisation of the `max_position` override block, and the behaviour of
every operation when the device acknowledges with the wrong character.
-/

namespace FocusLynx

open POCS

lemma update_focuser_status_bounds (f : Focuser) (dev : Dev) (g : Focuser)
    (dev2 : Dev) (effs : List Effect)
    (h : update_focuser_status f dev = (.ok g, dev2, effs)) :
    g.min_position = f.min_position ∧ g.max_position = f.max_position := by
  unfold update_focuser_status at h
  repeat' split at h
  all_goals simp_all
  all_goals (obtain ⟨h1, h2, h3⟩ := h; subst h1; simp)

lemma position_read_bounds (f : Focuser) (dev : Dev) (q : Int) (g : Focuser)
    (dev2 : Dev) (effs : List Effect)
    (h : position_read f dev = (.ok (q, g), dev2, effs)) :
    g.min_position = f.min_position ∧ g.max_position = f.max_position := by
  unfold position_read at h
  split at h
  case _ f2 d2 e2 heq =>
    simp only [Prod.mk.injEq, Except.ok.injEq] at h
    obtain ⟨⟨hq, hg⟩, hd, he⟩ := h
    subst hg
    exact update_focuser_status_bounds f dev f2 d2 e2 (by rw [heq])
  case _ => simp_all

lemma is_moving_read_bounds (f : Focuser) (dev : Dev) (q : Bool) (g : Focuser)
    (dev2 : Dev) (effs : List Effect)
    (h : is_moving_read f dev = (.ok (q, g), dev2, effs)) :
    g.min_position = f.min_position ∧ g.max_position = f.max_position := by
  unfold is_moving_read at h
  split at h
  case _ f2 d2 e2 heq =>
    simp only [Prod.mk.injEq, Except.ok.injEq] at h
    obtain ⟨⟨hq, hg⟩, hd, he⟩ := h
    subst hg
    exact update_focuser_status_bounds f dev f2 d2 e2 (by rw [heq])
  case _ => simp_all

lemma wait_while_moving_bounds :
    ∀ (fuel : Nat) (f : Focuser) (dev : Dev) (g : Focuser) (dev2 : Dev)
      (effs : List Effect),
      wait_while_moving fuel f dev = (.ok g, dev2, effs) →
      g.min_position = f.min_position ∧ g.max_position = f.max_position := by
  intro fuel
  induction fuel with
  | zero => intro f dev g dev2 effs h; simp [wait_while_moving] at h
  | succ k ih =>
    intro f dev g dev2 effs h
    unfold wait_while_moving at h
    split at h
    case _ => simp_all
    case _ m f2 d2 e2 heq =>
      split at h
      case _ hm =>
        rcases hrec : wait_while_moving k f2 d2 with ⟨r, d3, e3⟩
        rw [hrec] at h
        simp only [Prod.mk.injEq] at h
        obtain ⟨hr, hd, he⟩ := h
        subst hr
        have h1 := ih f2 d2 g d3 e3 hrec
        have h2 := is_moving_read_bounds f dev m f2 d2 e2 heq
        omega
      case _ hm =>
        simp only [Prod.mk.injEq, Except.ok.injEq] at h
        obtain ⟨hg, hd, he⟩ := h
        subst hg
        exact is_moving_read_bounds f dev m f2 d2 e2 heq

lemma move_to_bounds (f : Focuser) (p : Int) (b : Bool) (fuel : Nat) (dev : Dev)
    (q : Int) (g : Focuser) (dev2 : Dev) (effs : List Effect)
    (h : move_to f p b fuel dev = (.ok (q, g), dev2, effs)) :
    g.min_position = f.min_position ∧ g.max_position = f.max_position := by
  unfold move_to at h
  split at h
  case _ t ce hcl =>
    split at h
    case _ => simp_all
    case _ nick hnick =>
      split at h
      case _ => simp_all
      case _ r d2 e2 hsend =>
        split at h
        case _ hb =>
          split at h
          case _ => simp_all
          case _ f2 d3 e3 hwait =>
            split at h
            case _ => simp_all
            case _ pos f3 d4 e4 hpos =>
              have hw := wait_while_moving_bounds fuel f d2 f2 d3 e3 hwait
              have hp := position_read_bounds f2 d3 pos f3 d4 e4 hpos
              split at h
              case _ =>
                split at h
                case _ => simp_all
                case _ nick2 hn2 =>
                  simp only [Prod.mk.injEq, Except.ok.injEq] at h
                  obtain ⟨⟨hq, hg⟩, hd, he⟩ := h
                  subst hg
                  omega
              case _ =>
                simp only [Prod.mk.injEq, Except.ok.injEq] at h
                obtain ⟨⟨hq, hg⟩, hd, he⟩ := h
                subst hg
                omega
        case _ hb =>
          simp only [Prod.mk.injEq, Except.ok.injEq] at h
          obtain ⟨⟨hq, hg⟩, hd, he⟩ := h
          subst hg
          omega

lemma halt_state (f : Focuser) (dev : Dev) (g : Focuser) (dev2 : Dev)
    (effs : List Effect) (h : halt f dev = (.ok g, dev2, effs)) : g = f := by
  unfold halt at h
  split at h
  case _ => simp_all
  case _ r d2 e2 hsend =>
    split at h
    case _ => simp_all
    case _ nick hn =>
      simp only [Prod.mk.injEq, Except.ok.injEq] at h
      exact h.1.symm

lemma uid_set_bounds (f : Focuser) (nkn : String) (d : Dev) (g : Focuser)
    (d2 : Dev) (e2 : List Effect)
    (h : uid_set f nkn d = (.ok g, d2, e2)) :
    g.min_position = f.min_position ∧ g.max_position = f.max_position := by
  unfold uid_set at h
  split at h
  case _ nick2 weffs htr =>
    split at h
    case _ => simp_all
    case _ r dd2 ee2 hset =>
      split at h
      case _ => simp_all
      case _ cfg dd3 ee3 hget =>
        simp only [Prod.mk.injEq, Except.ok.injEq] at h
        obtain ⟨hg, hd, he⟩ := h
        subst hg
        simp

lemma applyMaxOverride_ok (minP devMax : Int) (cfgMax : Option Int) (mp : Int)
    (oeffs : List Effect)
    (h : applyMaxOverride minP devMax cfgMax = (.ok mp, oeffs)) :
    (cfgMax = none ∧ mp = devMax) ∨
    (∃ m, cfgMax = some m ∧ m ≤ devMax ∧ minP < m ∧ mp = m) ∨
    (∃ m, cfgMax = some m ∧ devMax < m ∧ mp = devMax) := by
  unfold applyMaxOverride at h
  split at h
  case _ => left; simp_all
  case _ m =>
    split_ifs at h with h1 h2
    · right; left
      refine ⟨m, rfl, h1, by omega, ?_⟩
      simp only [Prod.mk.injEq, Except.ok.injEq] at h
      omega
    · simp at h
    · right; right
      refine ⟨m, rfl, by omega, ?_⟩
      simp only [Prod.mk.injEq, Except.ok.injEq] at h
      omega

lemma applyMinPosition_spec (f1 : Focuser) (minP : Int) :
    0 ≤ (applyMinPosition f1 minP).1.min_position ∧
    (applyMinPosition f1 minP).1.max_position = f1.max_position := by
  unfold applyMinPosition
  split_ifs with hge
  · constructor
    · simpa using hge
    · simp
  · constructor
    · simp
    · simp

lemma construct_bounds (args : FocuserArgs) (fuel : Nat) (dev : Dev)
    (st : Focuser) (dev2 : Dev) (effs : List Effect)
    (h : construct args true fuel dev = (.ok st, dev2, effs)) :
    0 ≤ st.min_position ∧
    (∀ m, args.max_position = some m → st.max_position = m →
      st.min_position < st.max_position) := by
  unfold construct at h
  rw [if_neg (by simp)] at h
  split at h
  case _ => simp_all
  case _ f1 d2 e2 hinit =>
    split at h
    case _ f2 meffs hmin =>
      have hminspec := applyMinPosition_spec f1 args.min_position
      rw [hmin] at hminspec
      obtain ⟨hf2min, hf2max⟩ := hminspec
      split at h
      case _ => simp_all
      case _ mp oeffs hap =>
        have hcases := applyMaxOverride_ok f2.min_position f2.max_position
          args.max_position mp oeffs hap
        split at h
        case _ =>
          simp only [Prod.mk.injEq, Except.ok.injEq] at h
          obtain ⟨hst, hd, he⟩ := h
          subst hst
          refine ⟨by simpa using hf2min, ?_⟩
          intro m hm heqmax
          simp only at heqmax
          rcases hcases with ⟨hn, -⟩ | ⟨m2, hs, hle, hlt, hmp⟩ | ⟨m2, hs, hgt, hmp⟩
          · simp_all
          · rw [hm] at hs; injection hs with hs; subst hs
            simp only
            omega
          · rw [hm] at hs; injection hs with hs; subst hs
            omega
        case _ ip hip =>
          simp only [] at h
          split at h
          case _ => simp_all
          case _ rr f4 d3 e3 hmove =>
            simp only [Prod.mk.injEq, Except.ok.injEq] at h
            obtain ⟨hst, hd, he⟩ := h
            subst hst
            have hmb := move_to_bounds _ ip true fuel d2 rr f4 d3 e3 hmove
            obtain ⟨hmb1, hmb2⟩ := hmb
            simp only at hmb1 hmb2
            refine ⟨by rw [hmb1]; simpa using hf2min, ?_⟩
            intro m hm heqmax
            rw [hmb2] at heqmax
            rcases hcases with ⟨hn, -⟩ | ⟨m2, hs, hle, hlt, hmp⟩ | ⟨m2, hs, hgt, hmp⟩
            · simp_all
            · rw [hm] at hs; injection hs with hs; subst hs
              rw [hmb1, hmb2]
              omega
            · rw [hm] at hs; injection hs with hs; subst hs
              rw [hmb1, hmb2]
              omega

lemma sendCommand_badAck (l : String) (tl : List String) (rest : Dev)
    (hl : pyStrip l ≠ "!") :
    ∀ (cmd : String) (ct : CommandType),
      sendCommand cmd ct ((l :: tl) :: rest) =
        (.error (.runtimeError (pyStrip l)), rest, [Effect.serialWrite cmd]) := by
  intro cmd ct
  unfold sendCommand devPop sendCmdLines readline
  simp [hl, Except.map]

lemma getInfo_badAck (l : String) (tl : List String) (rest : Dev)
    (hl : pyStrip l ≠ "!") :
    ∀ (cmd header : String),
      getInfo cmd header ((l :: tl) :: rest) =
        (.ok none, rest,
          [Effect.serialWrite cmd, Effect.logError (getInfoWarnMsg cmd (pyStrip l)),
           Effect.warn (getInfoWarnMsg cmd (pyStrip l))]) := by
  intro cmd header
  unfold getInfo
  rw [sendCommand_badAck l tl rest hl cmd]
  simp

lemma update_badAck (l : String) (tl : List String) (rest : Dev)
    (hl : pyStrip l ≠ "!") :
    ∀ (f : Focuser),
      update_focuser_status f ((l :: tl) :: rest) =
        (.error .typeError, rest,
          [Effect.serialWrite (statusCommand f.focuser_number),
           Effect.logError (getInfoWarnMsg (statusCommand f.focuser_number) (pyStrip l)),
           Effect.warn (getInfoWarnMsg (statusCommand f.focuser_number) (pyStrip l))]) := by
  intro f
  unfold update_focuser_status
  rw [getInfo_badAck l tl rest hl (statusCommand f.focuser_number)
    (statusHeader f.focuser_number)]
  simp [subscript, Bind.bind, Except.bind]

end FocusLynx

/-!
Claim theorems.
-/

namespace FocusLynx

open POCS

/-- C1: for every requested position, `move_to` clamps the target into
`[min_position, max_position]` (to the nearest bound when outside), emits a
warning exactly when clamping occurred, proceeds without raising, sends the
clamped target in the wire command, and in the non-blocking case returns the
clamped target. -/
theorem focuslynx_move_to_clamps
    (f : Focuser) (p : Int) (rest : Dev) (fuel : Nat) (nick : String)
    (hb : f.min_position ≤ f.max_position)
    (hnick : uid_read f = .ok nick) :
    f.min_position ≤ (clampEffects f p).1 ∧
    (clampEffects f p).1 ≤ f.max_position ∧
    (p < f.min_position → (clampEffects f p).1 = f.min_position) ∧
    (f.max_position < p → (clampEffects f p).1 = f.max_position) ∧
    (p < f.min_position ∨ f.max_position < p →
      ∃ msg, Effect.warn msg ∈ (clampEffects f p).2) ∧
    (f.min_position ≤ p → p ≤ f.max_position → (clampEffects f p).2 = []) ∧
    move_to f p false fuel (["!", "M"] :: rest) =
      (.ok ((clampEffects f p).1, f), rest,
        (clampEffects f p).2 ++
          [Effect.logDebug ("Moving focuser " ++ nick ++ " to " ++
            toString (clampEffects f p).1),
           Effect.serialWrite (moveCommand f.focuser_number (clampEffects f p).1)]) := by
  refine ⟨?_, ?_, ?_, ?_, ?_, ?_, ?_⟩
  · unfold clampEffects; split_ifs <;> simp <;> omega
  · unfold clampEffects; split_ifs <;> simp <;> omega
  · unfold clampEffects; split_ifs <;> simp <;> omega
  · unfold clampEffects; split_ifs <;> simp <;> omega
  · intro hout
    unfold clampEffects
    split_ifs with h1 h2
    · exact ⟨"Requested position " ++ toString p ++
        " less than min position, moving to " ++ toString f.min_position ++ "!",
        by simp⟩
    · exact ⟨"Requested position " ++ toString p ++
        " greater than max position, moving to " ++ toString f.max_position ++ "!",
        by simp⟩
    · exfalso; omega
  · intro hle1 hle2
    unfold clampEffects
    split_ifs with h1 h2
    · exfalso; omega
    · exfalso; omega
    · rfl
  · rcases hcl : clampEffects f p with ⟨t, ce⟩
    unfold move_to
    rw [hcl, hnick]
    have hsend : sendCommand (moveCommand f.focuser_number t) CommandType.move
        (["!", "M"] :: rest) =
        (.ok none, rest, [Effect.serialWrite (moveCommand f.focuser_number t)]) := rfl
    simp [hsend]

/-- C1 witness: with bounds `[0, 7000]`, `move_to 8000` (non-blocking) clamps
to 7000, warns, sends `<F1MA007000>` and returns 7000. -/
theorem focuslynx_move_to_clamps_witness :
    (clampEffects Examples.fEx 8000).1 ≤ Examples.fEx.max_position ∧
    move_to Examples.fEx 8000 false 0 (["!", "M"] :: []) =
      (.ok ((clampEffects Examples.fEx 8000).1, Examples.fEx), [],
        (clampEffects Examples.fEx 8000).2 ++
          [Effect.logDebug ("Moving focuser " ++ "Foc" ++ " to " ++
            toString (clampEffects Examples.fEx 8000).1),
           Effect.serialWrite (moveCommand Examples.fEx.focuser_number
             (clampEffects Examples.fEx 8000).1)]) := by
  have h := focuslynx_move_to_clamps Examples.fEx 8000 [] 0 "Foc" (by decide) rfl
  exact ⟨h.2.1, h.2.2.2.2.2.2⟩

/-- C2 counterexample: with the device acknowledging a status query with `X`
instead of `!`, the property read does NOT raise the protocol error carrying
`X`: `_get_info` swallows the `RuntimeError` and returns `None`, and the read
fails with a `TypeError` from subscripting `None` instead. -/
theorem focuslynx_status_read_swallows_protocol_error :
    (position_read Examples.fEx [["X"]]).1 = .error .typeError ∧
    (position_read Examples.fEx [["X"]]).1 ≠ .error (.runtimeError "X") ∧
    Effect.warn (getInfoWarnMsg (statusCommand 1) "X") ∈
      (position_read Examples.fEx [["X"]]).2.2 := by
  refine ⟨rfl, ?_, by decide⟩
  intro hc
  rw [show (position_read Examples.fEx [["X"]]).1 = .error .typeError from rfl] at hc
  simp at hc

/-- C2 (amended): a first response line other than `!` raises
`RuntimeError` carrying the stripped line; this propagates out of `move_to`
and `halt`, which call `_send_command` directly; but `initialise` and the
status-driven reads (`position`, `is_moving`) reach the device through
`_get_info`, which catches the `RuntimeError`, warns with a message carrying
the line, and returns `None` — the error that then surfaces is a `TypeError`
from subscripting `None`, not the protocol error. -/
theorem focuslynx_ack_error_reporting
    (f : Focuser) (l : String) (tl : List String) (rest : Dev) (nick : String)
    (p : Int) (b : Bool) (fuel : Nat)
    (hl : pyStrip l ≠ "!") (hnick : uid_read f = .ok nick) :
    (move_to f p b fuel ((l :: tl) :: rest)).1 = .error (.runtimeError (pyStrip l)) ∧
    (halt f ((l :: tl) :: rest)).1 = .error (.runtimeError (pyStrip l)) ∧
    (position_read f ((l :: tl) :: rest)).1 = .error .typeError ∧
    Effect.warn (getInfoWarnMsg (statusCommand f.focuser_number) (pyStrip l)) ∈
      (position_read f ((l :: tl) :: rest)).2.2 ∧
    (is_moving_read f ((l :: tl) :: rest)).1 = .error .typeError ∧
    (initialise f [[l], [l], [l]]).1 = .error .typeError := by
  refine ⟨?_, ?_, ?_, ?_, ?_, ?_⟩
  · unfold move_to
    rcases hcl : clampEffects f p with ⟨t, ce⟩
    rw [hnick]
    simp only [sendCommand_badAck l tl rest hl]
  · unfold halt
    rw [sendCommand_badAck l tl rest hl (haltCommand f.focuser_number) CommandType.halt]
  · unfold position_read
    rw [update_badAck l tl rest hl f]
  · unfold position_read
    rw [update_badAck l tl rest hl f]
    simp
  · unfold is_moving_read
    rw [update_badAck l tl rest hl f]
  · unfold initialise
    simp only [getInfo_badAck l [] [[l], [l]] hl, getInfo_badAck l [] [[l]] hl,
      update_badAck l [] [] hl]

/-- C2 witness: acknowledgment `X` makes `move_to` and `halt` raise the
protocol error carrying `X`, while `initialise` fails with a `TypeError`. -/
theorem focuslynx_ack_error_reporting_witness :
    (move_to Examples.fEx 100 true 5 [["X"]]).1 = .error (.runtimeError (pyStrip "X")) ∧
    (halt Examples.fEx [["X"]]).1 = .error (.runtimeError (pyStrip "X")) ∧
    (initialise Examples.fEx [["X"], ["X"], ["X"]]).1 = .error .typeError := by
  have h := focuslynx_ack_error_reporting Examples.fEx "X" [] [] "Foc" 100 true 5
    (by decide) rfl
  exact ⟨h.1, h.2.1, h.2.2.2.2.2⟩

/-- C3 (code bug): the `temperature` property at focuslynx.py line 153 reads
`self._update_focuser_status` without calling it, so no status query happens
at all — the device is not contacted (no effects, script untouched) and the
cached `_temperature` is returned; at the failing input below the device
would report 25 but the stale 20 is returned. -/
theorem focuslynx_temperature_read_no_query :
    (∀ (f : Focuser) (dev : Dev),
      temperature_read f dev = (.ok (f.temperature, f), dev, [])) ∧
    (temperature_read Examples.fEx
      [["!", "STATUS1", "Temp(C) = 25", "END"]]).1 =
      .ok (⟨20, 0⟩, Examples.fEx) :=
  ⟨fun _ _ => rfl, rfl⟩

/-- C4 counterexample: a body line with TWO equals signs is not split on the
first `=` as claimed: the spec-worded decoder yields the pair
`(a, b=c)` but the code raises (`ValueError` from unpacking a 3-element
split). -/
theorem focuslynx_info_two_equals_counterexample :
    parseInfo ["a=b=c", "END"] [] = .error (.valueError "a=b=c") ∧
    SpecModel.decodeBlockSpec ["a=b=c", "END"] [] = .ok ([("a", "b=c")], []) := by
  constructor <;> rfl

/-- C4 (amended): a body line before `END` whose split on `=` yields exactly
two pieces is recorded with both sides stripped; any body line whose split
does not yield exactly two pieces — no `=` at all, or more than one — raises
an error, and no partial record of the already-parsed pairs is returned. -/
theorem focuslynx_info_line_split :
    (∀ (l : String) (ls : List String) (acc : Dict) (k v : String),
      pyStrip l ≠ "END" → splitEq (pyStrip l) = [k, v] →
      parseInfo (l :: ls) acc = parseInfo ls (dictInsert acc (pyStrip k) (pyStrip v))) ∧
    (∀ (pre : List String) (bad : String) (rest : List String) (acc : Dict),
      (∀ l ∈ pre, goodLine l) → badLine bad →
      parseInfo (pre ++ bad :: rest) acc = .error (.valueError (pyStrip bad))) := by
  constructor
  · intro l ls acc k v hne hsplit
    simp only [parseInfo]
    rw [if_neg hne, hsplit]
  · intro pre
    induction pre with
    | nil =>
      intro bad rest acc hgood hbad
      obtain ⟨hne, hlen⟩ := hbad
      simp only [List.nil_append, parseInfo]
      rw [if_neg hne]
      rcases hsp : splitEq (pyStrip bad) with _ | ⟨a, _ | ⟨b, _ | ⟨c, tl2⟩⟩⟩
      · rfl
      · rfl
      · rw [hsp] at hlen; simp at hlen
      · rfl
    | cons l pre2 ih =>
      intro bad rest acc hgood hbad
      have hgl : goodLine l := hgood l (by simp)
      obtain ⟨hlne, hllen⟩ := hgl
      rcases hsp : splitEq (pyStrip l) with _ | ⟨a, _ | ⟨b, _ | ⟨c, tl2⟩⟩⟩
      · rw [hsp] at hllen; simp at hllen
      · rw [hsp] at hllen; simp at hllen
      · simp only [List.cons_append, parseInfo]
        rw [if_neg hlne, hsp]
        exact ih bad rest (dictInsert acc (pyStrip a) (pyStrip b))
          (fun x hx => hgood x (by simp [hx])) hbad
      · rw [hsp] at hllen; simp at hllen

/-- C4 witness: `a=b` is recorded as a pair; a later line without any `=`
aborts the whole decode with an error. -/
theorem focuslynx_info_line_split_witness :
    parseInfo ["a=b", "END"] [] =
      parseInfo ["END"] (dictInsert [] (pyStrip "a") (pyStrip "b")) ∧
    parseInfo ["x=1", "noequals"] [] = .error (.valueError "noequals") := by
  have h := focuslynx_info_line_split
  constructor
  · exact h.1 "a=b" ["END"] [] "a" "b" (by decide) (by decide)
  · exact h.2 ["x=1"] "noequals" [] [] (by intro x hx; simp at hx; subst hx; constructor <;> decide)
      (by constructor <;> decide)

end FocusLynx

namespace Mount

open POCS

/-- C5: a command table without a `slew` entry fails `AbstractMount`
construction (in the source both via the checking `setup_commands` body,
whose `assert` fails, and via the effective shadowed method, which cannot be
called); construction never emits an `openSerial` effect because
`create_serial` is commented out, so the failure precedes any transport
opening. -/
theorem mount_missing_slew_construction_fails
    (config : Option Dict) (cmds : Dict)
    (h : dictGet cmds "slew" = none) :
    isErr (constructMount config (some cmds)).1 = true ∧
    Effect.openSerial ∉ (constructMount config (some cmds)).2 ∧
    (setup_commands_checked cmds).1 = .error .assertionError := by
  refine ⟨?_, ?_, ?_⟩
  · unfold constructMount
    rcases config with _ | cfg
    · rfl
    · cases hsp : dictGet cfg "serial_port" <;>
        simp [hsp, setup_commands_effective, isErr]
  · unfold constructMount
    rcases config with _ | cfg
    · simp
    · cases hsp : dictGet cfg "serial_port" <;>
        simp [hsp, setup_commands_effective]
  · unfold setup_commands_checked
    rw [h]

/-- C5 witness: a table holding only `cmd_pre` has no `slew` entry and fails
construction. -/
theorem mount_missing_slew_construction_fails_witness :
    isErr (constructMount (some [("serial_port", "s")])
      (some [("cmd_pre", ":")])).1 = true ∧
    (setup_commands_checked [("cmd_pre", ":")]).1 = .error .assertionError := by
  have h := mount_missing_slew_construction_fails (some [("serial_port", "s")])
    [("cmd_pre", ":")] (by decide)
  exact ⟨h.1, h.2.2⟩

/-- C8 counterexample: `serial_query` on the name `goto`, absent from the
table, transmits the frame `:None#` on the wire and returns the device
response — it does not fail with an unknown-command error. -/
theorem mount_unknown_command_transmits :
    dictGet Examples.msessEx.commands "goto" = none ∧
    (serial_query Examples.msessEx "goto" ["r"]).1 = "r" ∧
    Effect.serialWrite ":None#" ∈ (serial_query Examples.msessEx "goto" ["r"]).2.2 := by
  refine ⟨rfl, rfl, by decide⟩

/-- C8 (amended): for a command name absent from the table, `get_command`
renders the missing lookup as the text `None`, and `serial_query` transmits
`pre_cmd ++ None ++ post_cmd` and completes normally with the Transport
response — no error is raised before or instead of transmitting. -/
theorem mount_unknown_command_sends_none_frame
    (m : MountSession) (cmd : String) (responses : List String)
    (h : dictGet m.commands cmd = none) :
    get_command m cmd = m.pre_cmd ++ "None" ++ m.post_cmd ∧
    serial_query m cmd responses =
      ((serialRead responses).1, (serialRead responses).2,
       [Effect.logDebug ("Mount Send: " ++ (m.pre_cmd ++ "None" ++ m.post_cmd)),
        Effect.serialWrite (m.pre_cmd ++ "None" ++ m.post_cmd),
        Effect.logDebug ("Mount Read: " ++ (serialRead responses).1)]) := by
  have hg : get_command m cmd = m.pre_cmd ++ "None" ++ m.post_cmd := by
    unfold get_command pyFormatOpt
    rw [h]
  refine ⟨hg, ?_⟩
  unfold serial_query
  rcases hr : serialRead responses with ⟨resp, rs⟩
  simp only [hg, hr]

/-- C8 witness: the amended behaviour at the concrete session. -/
theorem mount_unknown_command_sends_none_frame_witness :
    get_command Examples.msessEx "goto" =
      Examples.msessEx.pre_cmd ++ "None" ++ Examples.msessEx.post_cmd := by
  have h := mount_unknown_command_sends_none_frame Examples.msessEx "goto" ["r"]
    (by decide)
  exact h.1

end Mount

namespace FocusLynx

open POCS

/-- C6: when opening the serial port fails, the constructor exits with an
exception (the handler itself raises `NameError` on the undefined name
`port`), so no `Focuser` value is produced, nothing is sent to the device,
and no controller state is marked ready. -/
theorem focuslynx_serial_failure_exits_constructor
    (args : FocuserArgs) (fuel : Nat) (dev : Dev) :
    construct args false fuel dev =
      (.error (.nameError "port"), dev,
        [Effect.logCritical ("Could not open " ++ args.port ++ "!")]) ∧
    (∀ g : Focuser, (construct args false fuel dev).1 ≠ .ok g) ∧
    (∀ s, Effect.serialWrite s ∉ (construct args false fuel dev).2.2) := by
  have h : construct args false fuel dev =
      (.error (.nameError "port"), dev,
        [Effect.logCritical ("Could not open " ++ args.port ++ "!")]) := by
    unfold construct
    rw [if_pos rfl]
  refine ⟨h, ?_, ?_⟩ <;> simp [h]

/-- C6 witness: the failure at a concrete argument set. -/
theorem focuslynx_serial_failure_exits_constructor_witness :
    construct Examples.argsW false 0 [] =
      (.error (.nameError "port"), [],
        [Effect.logCritical ("Could not open " ++ Examples.argsW.port ++ "!")]) :=
  (focuslynx_serial_failure_exits_constructor Examples.argsW 0 []).1

/-- C7 counterexample: with configured `min_position` 5000, configured
`max_position` 4500 and a device maximum of 4000, the configured maximum is
below the minimum, yet construction succeeds (keeping the device value 4000
and warning) instead of failing. -/
theorem focuslynx_max_below_min_not_rejected :
    Examples.args7c.max_position = some 4500 ∧
    Examples.args7c.min_position = 5000 ∧
    isErr (construct Examples.args7c true 5 Examples.dev7c).1 = false ∧
    resultMaxPos (construct Examples.args7c true 5 Examples.dev7c).1 = some 4000 ∧
    Effect.warn "Specified max_position 4500 greater than focuser max 4000!" ∈
      (construct Examples.args7c true 5 Examples.dev7c).2.2 := by
  refine ⟨rfl, rfl, rfl, rfl, by decide⟩

/-- C7 (amended): `max_position` is taken from the device's reported maximum
(`Max Pos` of the config block); a configured override is compared with the
device value FIRST: above the device maximum it is rejected with a warning
and the device value kept (even when it is also at or below `min_position`);
at or below the device maximum it replaces the device value when strictly
above `min_position` and fails construction with `ValueError` otherwise. -/
theorem focuslynx_max_override_rules :
    (∀ (minP devMax m : Int), m ≤ devMax → minP < m →
      applyMaxOverride minP devMax (some m) = (.ok m, [])) ∧
    (∀ (minP devMax m : Int), m ≤ devMax → m ≤ minP →
      (applyMaxOverride minP devMax (some m)).1 =
        .error (.valueRange "Max position must be greater than min position!")) ∧
    (∀ (minP devMax m : Int), devMax < m →
      applyMaxOverride minP devMax (some m) =
        (.ok devMax,
          [Effect.warn ("Specified max_position " ++ toString m ++
            " greater than focuser max " ++ toString devMax ++ "!")])) ∧
    (∀ (minP devMax : Int), applyMaxOverride minP devMax none = (.ok devMax, [])) ∧
    resultMaxPos (construct Examples.argsDev true 5 Examples.dev7c).1 = some 4000 ∧
    resultMaxPos (construct Examples.argsW true 5 Examples.devW).1 = some 4200 := by
  refine ⟨?_, ?_, ?_, ?_, rfl, rfl⟩
  · intro minP devMax m h1 h2
    unfold applyMaxOverride
    simp only []
    rw [if_pos h1, if_pos (by omega)]
  · intro minP devMax m h1 h2
    unfold applyMaxOverride
    simp only []
    rw [if_pos h1, if_neg (by omega)]
  · intro minP devMax m h1
    unfold applyMaxOverride
    simp only []
    rw [if_neg (by omega)]
  · intro minP devMax
    rfl

/-- C7 witness: the three override outcomes at concrete bounds. -/
theorem focuslynx_max_override_rules_witness :
    applyMaxOverride 0 7000 (some 4200) = (.ok 4200, []) ∧
    (applyMaxOverride 5000 7000 (some 4200)).1 =
      .error (.valueRange "Max position must be greater than min position!") ∧
    applyMaxOverride 0 4000 (some 4500) =
      (.ok 4000,
        [Effect.warn ("Specified max_position " ++ toString (4500 : Int) ++
          " greater than focuser max " ++ toString (4000 : Int) ++ "!")]) := by
  have h := focuslynx_max_override_rules
  exact ⟨h.1 0 7000 4200 (by omega) (by omega),
    h.2.1 5000 7000 4200 (by omega) (by omega),
    h.2.2.1 0 4000 4500 (by omega)⟩

/-- C9: after a successful construction, `min_position` is non-negative and,
whenever an accepted explicit `max_position` override is what is stored,
`min_position < max_position`; and no public operation — `move_to`, `halt`,
the status reads, the nickname setter — changes either stored bound. -/
theorem focuslynx_bounds_invariant
    (args : FocuserArgs) (fuel : Nat) (dev : Dev) (st : Focuser) (dev2 : Dev)
    (effs : List Effect)
    (h : construct args true fuel dev = (.ok st, dev2, effs)) :
    0 ≤ st.min_position ∧
    (∀ m, args.max_position = some m → st.max_position = m →
      st.min_position < st.max_position) ∧
    (∀ (f : Focuser) (p : Int) (b : Bool) (fl : Nat) (d : Dev) (q : Int)
       (g : Focuser) (d2 : Dev) (e2 : List Effect),
      move_to f p b fl d = (.ok (q, g), d2, e2) →
      g.min_position = f.min_position ∧ g.max_position = f.max_position) ∧
    (∀ (f g : Focuser) (d d2 : Dev) (e2 : List Effect),
      halt f d = (.ok g, d2, e2) →
      g.min_position = f.min_position ∧ g.max_position = f.max_position) ∧
    (∀ (f : Focuser) (d : Dev) (q : Int) (g : Focuser) (d2 : Dev)
       (e2 : List Effect),
      position_read f d = (.ok (q, g), d2, e2) →
      g.min_position = f.min_position ∧ g.max_position = f.max_position) ∧
    (∀ (f : Focuser) (d : Dev) (q : Bool) (g : Focuser) (d2 : Dev)
       (e2 : List Effect),
      is_moving_read f d = (.ok (q, g), d2, e2) →
      g.min_position = f.min_position ∧ g.max_position = f.max_position) ∧
    (∀ (f : Focuser) (d : Dev) (q : PyFloat) (g : Focuser) (d2 : Dev)
       (e2 : List Effect),
      temperature_read f d = (.ok (q, g), d2, e2) →
      g.min_position = f.min_position ∧ g.max_position = f.max_position) ∧
    (∀ (f : Focuser) (nkn : String) (d : Dev) (g : Focuser) (d2 : Dev)
       (e2 : List Effect),
      uid_set f nkn d = (.ok g, d2, e2) →
      g.min_position = f.min_position ∧ g.max_position = f.max_position) := by
  have hc := construct_bounds args fuel dev st dev2 effs h
  refine ⟨hc.1, hc.2, ?_, ?_, ?_, ?_, ?_, ?_⟩
  · intro f p b fl d q g d2 e2 hm
    exact move_to_bounds f p b fl d q g d2 e2 hm
  · intro f g d d2 e2 hh
    rw [halt_state f d g d2 e2 hh]
    exact ⟨rfl, rfl⟩
  · intro f d q g d2 e2 hp
    exact position_read_bounds f d q g d2 e2 hp
  · intro f d q g d2 e2 hp
    exact is_moving_read_bounds f d q g d2 e2 hp
  · intro f d q g d2 e2 hp
    unfold temperature_read at hp
    simp only [Prod.mk.injEq, Except.ok.injEq] at hp
    obtain ⟨⟨hq, hg⟩, hd, he⟩ := hp
    subst hg
    exact ⟨rfl, rfl⟩
  · intro f nkn d g d2 e2 hu
    exact uid_set_bounds f nkn d g d2 e2 hu

/-- C9 witness: the concrete construction accepts the override 4200 against
device maximum 7000 and yields `0 = min_position < max_position = 4200`. -/
theorem focuslynx_bounds_invariant_witness :
    0 ≤ Examples.stW.min_position ∧
    Examples.stW.min_position < Examples.stW.max_position := by
  have h := focuslynx_bounds_invariant Examples.argsW 5 Examples.devW
    Examples.stW [] Examples.effsW rfl
  exact ⟨h.1, h.2.1 4200 rfl rfl⟩

/-- C10: a successful `halt` leaves every stored state field unchanged
(`g = f`, hence in particular `_position`, `_target_position`, `_is_moving`,
`_temperature`, `_min_position`, `_max_position`), and its effects are
exactly the halt command on the wire followed by the log notice. -/
theorem focuslynx_halt_frame
    (f : Focuser) (dev : Dev) (g : Focuser) (dev2 : Dev) (effs : List Effect)
    (h : halt f dev = (.ok g, dev2, effs)) :
    g.position = f.position ∧ g.target_position = f.target_position ∧
    g.is_moving = f.is_moving ∧ g.temperature = f.temperature ∧
    g.min_position = f.min_position ∧ g.max_position = f.max_position ∧
    g = f ∧
    ∃ nick, uid_read f = .ok nick ∧
      effs = [Effect.serialWrite (haltCommand f.focuser_number),
              Effect.logWarning ("Focuser " ++ nick ++ " halted")] := by
  have hg : g = f := halt_state f dev g dev2 effs h
  subst hg
  refine ⟨rfl, rfl, rfl, rfl, rfl, rfl, rfl, ?_⟩
  unfold halt at h
  split at h
  case _ => simp_all
  case _ r d2 e2 hsend =>
    split at h
    case _ => simp_all
    case _ nick hn =>
      refine ⟨nick, hn, ?_⟩
      simp only [Prod.mk.injEq, Except.ok.injEq] at h
      obtain ⟨-, -, he⟩ := h
      unfold sendCommand at hsend
      rcases hdp : devPop dev with ⟨resp, rs⟩
      rw [hdp] at hsend
      simp only [Prod.mk.injEq] at hsend
      obtain ⟨-, -, hes⟩ := hsend
      rw [← he, ← hes]
      rfl

/-- C10 witness: a concrete successful halt leaves the state record intact
and emits exactly the wire command and the log notice. -/
theorem focuslynx_halt_frame_witness :
    halt Examples.fEx [["!", "HALTED"]] =
      (.ok Examples.fEx, [],
        [Effect.serialWrite (haltCommand 1),
         Effect.logWarning "Focuser Foc halted"]) ∧
    Examples.fEx.min_position = Examples.fEx.min_position := by
  have h := focuslynx_halt_frame Examples.fEx [["!", "HALTED"]] Examples.fEx []
    [Effect.serialWrite (haltCommand 1), Effect.logWarning "Focuser Foc halted"] rfl
  exact ⟨rfl, h.2.2.2.2.1⟩

end FocusLynx
